import Mathlib

/-!
Shallow embedding of the paygrid-sdk payment signing core and its
polling/permit helpers, with proofs about the behaviour its specification
describes.  Each definition is translated from the TypeScript source
(`src/services/payment-signer.service.ts`, `src/utils/*.ts`,
`src/core/constants/*.ts`, and the payment client).  TypeScript `BigInt`
arithmetic is modelled with `Int` (`BigInt` division truncates toward
zero, hence `Int.tdiv`), decimal `number` arithmetic with `Rat`, and
fallible operations with `Option`/`Except`.
-/

namespace Paygrid

/-! ## Fee configuration (src/core/constants/config.ts, FEE_CONFIG) -/

/-- `FEE_CONFIG.GATEWAY_FEE_BPS = BigInt(10)` : the fixed protocol gateway
fee rate of 10 basis points. -/
def GATEWAY_FEE_BPS : Int := 10

/-- `FEE_CONFIG.BPS_DENOMINATOR = BigInt(10000)`. -/
def BPS_DENOMINATOR : Int := 10000

/-! ## Fee split (payment-signer.service.ts, lines 91-99)

`constructPaymentAuthorizationPayload` computes

    const operatorFee = (amount * BigInt(fee_bps || 0)) / FEE_CONFIG.BPS_DENOMINATOR;
    const gatewayFee  = (amount * FEE_CONFIG.GATEWAY_FEE_BPS) / FEE_CONFIG.BPS_DENOMINATOR;
    const payeeAmount = amount - operatorFee - gatewayFee;

followed by the defensive reconciliation check

    const totalAmount = payeeAmount + operatorFee + gatewayFee;
    if (totalAmount !== amount) { throw new Error(`Amount mismatch ...`); }
-/

structure FeeSplit where
  payeeAmount : Int
  operatorFee : Int
  gatewayFee : Int
  deriving Repr, DecidableEq

/-- The fee-split arithmetic of `constructPaymentAuthorizationPayload`:
operator and gateway legs by truncating BigInt division, payee leg by
subtraction. -/
def computeFeeSplit (amount feeBps : Int) : FeeSplit :=
  let operatorFee := Int.tdiv (amount * feeBps) BPS_DENOMINATOR
  let gatewayFee := Int.tdiv (amount * GATEWAY_FEE_BPS) BPS_DENOMINATOR
  { payeeAmount := amount - operatorFee - gatewayFee
    operatorFee := operatorFee
    gatewayFee := gatewayFee }

/-- The defensive reconciliation check guarding the fee split: recompute
the total and fail if it does not match the original amount. -/
def reconciledFeeSplit (amount feeBps : Int) : Except String FeeSplit :=
  let s := computeFeeSplit amount feeBps
  let totalAmount := s.payeeAmount + s.operatorFee + s.gatewayFee
  if totalAmount ≠ amount then .error "Amount mismatch" else .ok s

theorem computeFeeSplit_sum (amount feeBps : Int) :
    (computeFeeSplit amount feeBps).payeeAmount
      + (computeFeeSplit amount feeBps).operatorFee
      + (computeFeeSplit amount feeBps).gatewayFee = amount := by
  simp only [computeFeeSplit]
  ring

/-! ## Amount conversion (src/utils/config.ts, convertAmountToDecimals)

    static convertAmountToDecimals(amountInCents: number, decimals: number): bigint {
      const baseUnits = amountInCents / 100;
      return ethers.utils.parseUnits(baseUnits.toString(), decimals).toBigInt();
    }

The division `amountInCents / 100` is exact decimal arithmetic (modelled
exactly; JavaScript renders `n / 100` as the decimal `n/100` for the
integer magnitudes in range here), and `parseUnits(s, decimals)` scales
the decimal string by `10^decimals`, throwing when the fractional
component exceeds `decimals` digits, i.e. when `amountInCents * 10^decimals`
is not a multiple of 100.  The throw is modelled as `none`. -/

/-- Conversion from cents to token native units: succeeds with
`amountInCents * 10^decimals / 100` exactly when that quotient is an
integer, otherwise `parseUnits` throws. -/
def convertAmountToDecimals (amountInCents decimals : Nat) : Option Nat :=
  if amountInCents * 10 ^ decimals % 100 = 0 then
    some (amountInCents * 10 ^ decimals / 100)
  else
    none

/-! ## Corridor-fee adjustment (payment-signer.service.ts, lines 298-364)

`adjustAmountWithCorridorFees` adjusts the amount only when
`processing_fees?.quoteId` is truthy (a non-empty string) and
`processing_fees?.charge_bearer === ChargeBearer.PAYER`.  In that case it
fetches the effective quote; a fetch failure, a missing quote, or a falsy
(zero) `estimated_total_fees` lands in the catch block, which falls back
to `convertAmountToDecimals`.  On success it returns
`BigInt(Math.floor((amountInCents/100 + fees) * 10^decimals))`.
The external quote fetch is modelled as an input of type
`Except String Rat` (the service is outside this repository). -/

inductive ChargeBearer where
  | OPERATOR | PAYEE | PAYER | PG_GATEWAY
  deriving Repr, DecidableEq

/-- JavaScript truthiness of the optional `quoteId` string: absent and
empty strings are falsy. -/
def isTruthyQuoteId : Option String → Bool
  | none => false
  | some s => !s.isEmpty

/-- The amount-adjustment logic of `adjustAmountWithCorridorFees`. -/
def adjustAmountWithCorridorFees (amountInCents decimals : Nat)
    (quoteId : Option String) (chargeBearer : Option ChargeBearer)
    (quoteFetch : Except String Rat) : Option Int :=
  let originalAmountInDecimals : Rat := (amountInCents : Rat) / 100
  let fallback : Option Int := (convertAmountToDecimals amountInCents decimals).map Int.ofNat
  if isTruthyQuoteId quoteId = true ∧ chargeBearer = some ChargeBearer.PAYER then
    match quoteFetch with
    | .ok feesInDecimals =>
        if feesInDecimals = 0 then
          -- `!estimated_total_fees` is true for 0, so the code throws and the
          -- catch block falls back to the unadjusted conversion
          fallback
        else
          some ⌊(originalAmountInDecimals + feesInDecimals) * 10 ^ decimals⌋
    | .error _ => fallback
  else
    fallback

/-! ## Payment-type coercion (payment-signer.service.ts lines 117-121 and
the client formatter `formatPaymentIntentForSubmission` lines 116-121)

Both sites compute

    ['one-time', 'recurring'].includes(pt?.toLowerCase()) ?
      (pt?.toLowerCase() === 'one-time' ? ONE_TIME : RECURRING) :
      ONE_TIME

where the signer maps to the numeric `GridPaymentType` codes (0/1) and
the formatter to the `PaymentType` strings. -/

/-- `toLowerCase()` on the payment-type string: lower-case every character
(character-wise, as `String.toLower` does; the payment-type vocabulary is
ASCII). -/
def toLowerStr (s : String) : String := ⟨s.data.map Char.toLower⟩

/-- The witness `payment_type` field: numeric `GridPaymentType` code. -/
def paymentTypeCode (pt : Option String) : Nat :=
  match pt.map toLowerStr with
  | some lower =>
      if lower = "one-time" ∨ lower = "recurring" then
        if lower = "one-time" then 0 else 1
      else 0
  | none => 0

/-- The `payment_type` string sent by `formatPaymentIntentForSubmission`. -/
def submittedPaymentType (pt : Option String) : String :=
  match pt.map toLowerStr with
  | some lower =>
      if lower = "one-time" ∨ lower = "recurring" then
        if lower = "one-time" then "one-time" else "recurring"
      else "one-time"
  | none => "one-time"

/-! ## Registry tables (src/core/constants/networks.ts, tokens.ts,
permit-config.ts)

Tokens and networks are closed enumerations (`SUPPORTED_TOKENS`,
`SUPPORTED_NETWORKS`); `TOKEN_PERMIT_TYPES` maps each token to a partial
record over networks, configured only for the five mainnets. -/

inductive TokenSymbol where
  | USDC | USDT | DAI
  deriving Repr, DecidableEq

inductive NetworkKey where
  | ETHEREUM | POLYGON | OPTIMISM | ARBITRUM | BASE
  | SEPOLIA | AMOY | OPTIMISM_SEPOLIA | BASE_SEPOLIA | ARBITRUM_SEPOLIA
  deriving Repr, DecidableEq

/-- `PermitType` from src/core/types/permit.ts: the closed set of legacy
approval variants (`REGULAR` is the no-permit variant). -/
inductive PermitType where
  | EIP2612 | DAI | REGULAR
  deriving Repr, DecidableEq

/-- `NETWORK_IDS` / `NETWORK_CONFIGS[*].chainId` from networks.ts. -/
def chainId : NetworkKey → Nat
  | .ETHEREUM => 1
  | .POLYGON => 137
  | .OPTIMISM => 10
  | .ARBITRUM => 42161
  | .BASE => 8453
  | .SEPOLIA => 11155111
  | .AMOY => 80002
  | .OPTIMISM_SEPOLIA => 11155420
  | .BASE_SEPOLIA => 84532
  | .ARBITRUM_SEPOLIA => 421614

/-- `TOKEN_PERMIT_TYPES` from permit-config.ts: every token is present,
each with entries for the five mainnet networks only (`none` models an
absent network entry in the partial record). -/
def TOKEN_PERMIT_TYPES (tokenSymbol : TokenSymbol) (network : NetworkKey) :
    Option PermitType :=
  match tokenSymbol, network with
  | .USDC, .ETHEREUM => some .EIP2612
  | .USDC, .POLYGON => some .EIP2612
  | .USDC, .OPTIMISM => some .EIP2612
  | .USDC, .ARBITRUM => some .EIP2612
  | .USDC, .BASE => some .EIP2612
  | .USDT, .ETHEREUM => some .REGULAR
  | .USDT, .POLYGON => some .REGULAR
  | .USDT, .OPTIMISM => some .REGULAR
  | .USDT, .ARBITRUM => some .REGULAR
  | .USDT, .BASE => some .REGULAR
  | .DAI, .ETHEREUM => some .DAI
  | .DAI, .POLYGON => some .DAI
  | .DAI, .OPTIMISM => some .EIP2612
  | .DAI, .ARBITRUM => some .EIP2612
  | .DAI, .BASE => some .REGULAR
  | _, _ => none

/-- `getTokenPermitType` from src/utils/permit-utils.ts: look the token up
in `TOKEN_PERMIT_TYPES`, then the network in the token's record,
returning null on either miss. -/
def getTokenPermitType (tokenSymbol : TokenSymbol) (network : NetworkKey) :
    Option PermitType :=
  TOKEN_PERMIT_TYPES tokenSymbol network

/-! ## Legacy permit payloads (src/services/permit.service.ts,
src/utils/permit-utils.ts)

On-chain reads (`nonces(owner)` / `getNonce(owner)`, `name()`,
`version()`) are external ledger queries; each probe is modelled as an
`Option`-valued input: `some v` when the view call responds with `v`,
`none` when it fails. -/

/-- Errors of the legacy permit payload builder. -/
inductive PermitError where
  | permitNotSupported
  | nonceUnavailable (msg : String)
  deriving Repr, DecidableEq

/-- `getTokenNonce` (permit-utils.ts, lines 31-52): try `nonces(owner)`
first, fall back to `getNonce(owner)` if it fails, and fail only when
neither responds. -/
def getTokenNonce (noncesProbe getNonceProbe : Option Nat) :
    Except PermitError Nat :=
  match noncesProbe with
  | some nonce => .ok nonce
  | none =>
      match getNonceProbe with
      | some nonce => .ok nonce
      | none =>
          .error (.nonceUnavailable
            "Failed to get nonce: Neither nonces() nor getNonce() methods available")

/-- `getTokenNameAndVersion`: fallback name "Unknown Token" and fallback
version "1" when the optional accessors fail. -/
def getTokenNameAndVersion (nameProbe versionProbe : Option String) :
    String × String :=
  (nameProbe.getD "Unknown Token", versionProbe.getD "1")

/-- `PERMIT2_CONFIG.ADDRESS`, used as `GLOBAL_SPENDER`. -/
def GLOBAL_SPENDER : String := "0x000000000022D473030F116dDEE9F6B43aC78BA3"

/-- `ethers.constants.MaxUint256`, the default approval value. -/
def MAX_UINT256 : Nat := 2 ^ 256 - 1

/-- `EIP2612_PERMIT_TYPES.Permit` field list (permit-config.ts). -/
def EIP2612_PERMIT_TYPES : List (String × String) :=
  [("owner", "address"), ("spender", "address"), ("value", "uint256"),
   ("nonce", "uint256"), ("deadline", "uint256")]

/-- `DAI_PERMIT_TYPES.Permit` field list (permit-config.ts). -/
def DAI_PERMIT_TYPES : List (String × String) :=
  [("holder", "address"), ("spender", "address"), ("nonce", "uint256"),
   ("expiry", "uint256"), ("allowed", "bool")]

structure PermitDomain where
  name : String
  version : String
  chainId : Nat
  verifyingContract : String
  deriving Repr, DecidableEq

/-- The two shapes of the `values` object: the EIP-2612 field set and the
DAI-style field set, with exactly the fields each builder emits. -/
inductive PermitValues where
  | eip2612 (owner spender : String) (value nonce deadline : Nat)
  | dai (holder spender : String) (nonce expiry : Nat) (allowed : Bool)
  deriving Repr, DecidableEq

structure PermitSignaturePayload where
  domain : PermitDomain
  types : List (String × String)
  values : PermitValues
  deriving Repr, DecidableEq

structure PermitSignatureParams where
  token : String
  owner : String
  spender : Option String
  value : Option Nat
  deadline : Nat
  nonce : Option Nat
  deriving Repr, DecidableEq

/-- `PermitService.generateEIP2612Payload`. -/
def generateEIP2612Payload (params : PermitSignatureParams) (chainId : Nat)
    (nameProbe versionProbe : Option String)
    (noncesProbe getNonceProbe : Option Nat) :
    Except PermitError PermitSignaturePayload :=
  let nv := getTokenNameAndVersion nameProbe versionProbe
  let nonceResult :=
    match params.nonce with
    | some n => Except.ok n
    | none => getTokenNonce noncesProbe getNonceProbe
  match nonceResult with
  | .error e => .error e
  | .ok nonce =>
      .ok { domain := { name := nv.1, version := nv.2, chainId := chainId,
                        verifyingContract := params.token }
            types := EIP2612_PERMIT_TYPES
            values := .eip2612 params.owner (params.spender.getD GLOBAL_SPENDER)
              (params.value.getD MAX_UINT256) nonce params.deadline }

/-- `PermitService.generateDAIPayload`: domain version is the fixed
string "1" and the values carry `allowed := true`. -/
def generateDAIPayload (params : PermitSignatureParams) (chainId : Nat)
    (nameProbe versionProbe : Option String)
    (noncesProbe getNonceProbe : Option Nat) :
    Except PermitError PermitSignaturePayload :=
  let nv := getTokenNameAndVersion nameProbe versionProbe
  let nonceResult :=
    match params.nonce with
    | some n => Except.ok n
    | none => getTokenNonce noncesProbe getNonceProbe
  match nonceResult with
  | .error e => .error e
  | .ok nonce =>
      .ok { domain := { name := nv.1, version := "1", chainId := chainId,
                        verifyingContract := params.token }
            types := DAI_PERMIT_TYPES
            values := .dai params.owner (params.spender.getD GLOBAL_SPENDER)
              nonce params.deadline true }

/-- `PermitService.getPermitPayload`: dispatch on the permit-type table
(symbols are modelled already upper-cased, as the enumeration values);
null or `REGULAR` entries fail with the permit-not-supported error. -/
def getPermitPayload (tokenSymbol : TokenSymbol) (network : NetworkKey)
    (params : PermitSignatureParams) (nameProbe versionProbe : Option String)
    (noncesProbe getNonceProbe : Option Nat) :
    Except PermitError PermitSignaturePayload :=
  match getTokenPermitType tokenSymbol network with
  | none => .error .permitNotSupported
  | some .REGULAR => .error .permitNotSupported
  | some .EIP2612 =>
      generateEIP2612Payload params (chainId network) nameProbe versionProbe
        noncesProbe getNonceProbe
  | some .DAI =>
      generateDAIPayload params (chainId network) nameProbe versionProbe
        noncesProbe getNonceProbe

/-! ## Status polling (PaymentIntentClient.pollPaymentIntentStatus)

    while (attempts < maxAttempts) {
      if (options.abortSignal?.aborted) { throw aborted(lastPaymentIntent); }
      const paymentIntent = await this.getPaymentIntentById(id);
      lastPaymentIntent = paymentIntent;
      if (FINAL_PAYMENT_STATES.includes(paymentIntent.status)) {
        if (paymentIntent.status === FAILED) { throw paymentFailed(paymentIntent); }
        return paymentIntent;
      }
      if (++attempts === maxAttempts) { throw timeoutReached(paymentIntent); }
      await sleep(interval);
    }
    throw maxAttemptsExceeded(lastPaymentIntent);

The remote API is modelled as a trace `fetch : Nat → PaymentIntentResponse`
giving the response observed at loop iteration `i`, and the cancellation
signal as `abortAt : Nat → Bool`, its state when iteration `i` checks it
(each iteration either exits or increments `attempts`, so the iteration
index equals `attempts`).  The thrown errors are the `PollError`
constructors; `formatPaymentDetails` attaches the carried response (its
status and, for failures, the blockchain transaction error). -/

inductive PaymentStatus where
  | RELEASED_TO_GATEWAY | PROCESSING | SCHEDULED
  | COMPLETED | FAILED | CANCELLED
  deriving Repr, DecidableEq

/-- `FINAL_PAYMENT_STATES` from src/core/types/index.ts. -/
def FINAL_PAYMENT_STATES : List PaymentStatus :=
  [.COMPLETED, .FAILED, .CANCELLED]

/-- The slice of `PaymentIntentResponse` that the polling errors report:
id, status, and the optional `blockchain_metadata.transaction.error`
detail. -/
structure PaymentIntentResponse where
  id : String
  status : PaymentStatus
  txError : Option String
  deriving Repr, DecidableEq

/-- The errors `pollPaymentIntentStatus` can throw, each carrying the
payment details the code formats into the message. -/
inductive PollError where
  | aborted (last : Option PaymentIntentResponse)
  | paymentFailed (payment : PaymentIntentResponse)
  | timeoutReached (payment : PaymentIntentResponse)
  | maxAttemptsExceeded (last : Option PaymentIntentResponse)
  deriving Repr, DecidableEq

/-- A `PollingTimeout` outcome: either of the two exhaustion errors
(in-loop "Payment timeout reached" and post-loop "exceeded maximum
attempts"). -/
def PollError.isTimeout : PollError → Bool
  | .timeoutReached _ => true
  | .maxAttemptsExceeded _ => true
  | _ => false

/-- The polling loop body, structurally recursive on the remaining fuel
`maxAttempts - attempts`. -/
def pollLoop (fetch : Nat → PaymentIntentResponse) (abortAt : Nat → Bool)
    (maxAttempts : Nat) :
    Nat → Nat → Option PaymentIntentResponse →
      Except PollError PaymentIntentResponse
  | attempts, fuel + 1, last =>
      if abortAt attempts then .error (.aborted last)
      else
        let paymentIntent := fetch attempts
        if paymentIntent.status ∈ FINAL_PAYMENT_STATES then
          if paymentIntent.status = .FAILED then
            .error (.paymentFailed paymentIntent)
          else
            .ok paymentIntent
        else if attempts + 1 = maxAttempts then
          .error (.timeoutReached paymentIntent)
        else
          pollLoop fetch abortAt maxAttempts (attempts + 1) fuel
            (some paymentIntent)
  | _, 0, last => .error (.maxAttemptsExceeded last)

/-- `pollPaymentIntentStatus`: run the loop from `attempts = 0` with no
last-known payment. -/
def pollPaymentIntentStatus (fetch : Nat → PaymentIntentResponse)
    (abortAt : Nat → Bool) (maxAttempts : Nat) :
    Except PollError PaymentIntentResponse :=
  pollLoop fetch abortAt maxAttempts 0 maxAttempts none

/-! ## Signing façade (src/utils/eip712-support.ts)

    export function isSignTypedDataSupported(signer) {
      if (signer._signTypedData) { return signer; }
      return Object.create(signer, { _signTypedData: { value: async (domain, types, value) => {
        const domainSeparator = ethers.utils._TypedDataEncoder.hashDomain(domain);
        const hashStruct = ethers.utils._TypedDataEncoder.hash(domain, types, value);
        const digest = keccak256(concat([toUtf8Bytes("\x19\x01"), domainSeparator, hashStruct]));
        return signer.signMessage(arrayify(digest));
      }}});
    }

Hashing and signing are modelled symbolically, in the ideal (free-algebra)
model of a collision-free hash: byte strings are terms of `SymBytes`, two
digests are equal exactly when they are built the same way, and an ECDSA
signature is determined by the signing key and the digest actually signed.
The ethers primitives follow their documented v5 semantics:

* `_TypedDataEncoder.hashDomain(domain)` hashes the domain;
* `_TypedDataEncoder.hash(domain, types, value)` returns the COMPLETE
  EIP-712 digest `keccak256("\x19\x01" ‖ hashDomain ‖ hashStruct)` (not
  the bare struct hash the surrounding code's variable name suggests);
* `Signer.signMessage(bytes)` signs per EIP-191 personal-message rules:
  it hashes `"\x19Ethereum Signed Message:\n" + len(bytes)` ‖ bytes and
  signs that digest (it does NOT sign the raw bytes);
* `Wallet._signTypedData(domain, types, value)` (native structured
  signing) signs the EIP-712 digest itself. -/

/-- A typed-data payload, opaque up to the pieces the hashing scheme
consumes. -/
structure TypedDataPayload where
  domain : String
  types : String
  values : String
  deriving Repr, DecidableEq

/-- Symbolic byte strings: literals, the standard typed-data hashes of a
payload's components, hashing, and concatenation.  As a free algebra this
is the ideal model of a collision-free keccak256. -/
inductive SymBytes where
  | lit (s : String)
  | hashDomain (domain : String)
  | hashStruct (types values : String)
  | keccak (m : SymBytes)
  | append (a b : SymBytes)
  deriving Repr, DecidableEq

/-- The EIP-712 digest of a payload,
`keccak256("\x19\x01" ‖ hashDomain(domain) ‖ hashStruct(types, values))`:
what native `_signTypedData` signs, and what
`_TypedDataEncoder.hash(domain, types, value)` returns. -/
def eip712Digest (p : TypedDataPayload) : SymBytes :=
  .keccak (.append (.lit "\x19\x01")
    (.append (.hashDomain p.domain) (.hashStruct p.types p.values)))

/-- EIP-191 personal-message hashing as performed by
`Signer.signMessage` on a 32-byte input. -/
def hashMessage (message : SymBytes) : SymBytes :=
  .keccak (.append (.lit "\x19Ethereum Signed Message:\n32") message)

/-- A symbolic ECDSA signature: deterministic in the key and the digest
that was signed. -/
structure SymSignature where
  key : String
  digest : SymBytes
  deriving Repr, DecidableEq

/-- Native structured-data signing (`Wallet._signTypedData`): sign the
EIP-712 digest. -/
def nativeSignTypedData (key : String) (p : TypedDataPayload) : SymSignature :=
  { key := key, digest := eip712Digest p }

/-- The synthesized `_signTypedData` fallback of
`isSignTypedDataSupported`: recompute the domain separator, call
`_TypedDataEncoder.hash` (the full digest, though the code names it
`hashStruct`), wrap with `0x19 0x01` and keccak, then `signMessage` the
result (which prefixes and hashes again per EIP-191). -/
def fallbackSignTypedData (key : String) (p : TypedDataPayload) : SymSignature :=
  let domainSeparator := SymBytes.hashDomain p.domain
  let hashStruct := eip712Digest p
  let digest := SymBytes.keccak (.append (.lit "\x19\x01")
    (.append domainSeparator hashStruct))
  { key := key, digest := hashMessage digest }

/-- A signer capability: an address key plus whether it natively exposes
`_signTypedData`. -/
structure SymSigner where
  hasSignTypedData : Bool
  key : String
  deriving Repr, DecidableEq

/-- `isSignTypedDataSupported(signer)._signTypedData(...)`: the native
path when supported, the synthesized fallback otherwise. -/
def signTypedDataVia (signer : SymSigner) (p : TypedDataPayload) :
    SymSignature :=
  if signer.hasSignTypedData then nativeSignTypedData signer.key p
  else fallbackSignTypedData signer.key p

end Paygrid

/-- C1: for every gross amount ≥ 0 and operator fee rate in [0,10000], the
fee split of `constructPaymentAuthorizationPayload` satisfies
`payee + operator_fee + gateway_fee = gross` exactly, and on
gross = 1000000, operator_bps = 50 it yields operator fee 5000, gateway
fee 1000, payee 994000. -/
theorem feeSplit_exact (gross feeBps : Int) (hg : 0 ≤ gross)
    (h0 : 0 ≤ feeBps) (h1 : feeBps ≤ 10000) :
    (Paygrid.computeFeeSplit gross feeBps).payeeAmount
        + (Paygrid.computeFeeSplit gross feeBps).operatorFee
        + (Paygrid.computeFeeSplit gross feeBps).gatewayFee = gross
      ∧ Paygrid.computeFeeSplit 1000000 50 =
        { payeeAmount := 994000, operatorFee := 5000, gatewayFee := 1000 } := by
  exact ⟨Paygrid.computeFeeSplit_sum gross feeBps, by decide⟩

/-- Witness for C1 at gross = 1000000, fee_bps = 50. -/
theorem feeSplit_exact_witness :
    (Paygrid.computeFeeSplit 1000000 50).payeeAmount
        + (Paygrid.computeFeeSplit 1000000 50).operatorFee
        + (Paygrid.computeFeeSplit 1000000 50).gatewayFee = 1000000
      ∧ Paygrid.computeFeeSplit 1000000 50 =
        { payeeAmount := 994000, operatorFee := 5000, gatewayFee := 1000 } :=
  feeSplit_exact 1000000 50 (by decide) (by decide) (by decide)

/-- C8: the defensive amount-reconciliation check in
`constructPaymentAuthorizationPayload` is unreachable: for every amount
and fee rate the recomputed total equals the original amount, so the
error branch is never taken and the check always returns the split. -/
theorem reconciliation_check_unreachable (amount feeBps : Int) :
    Paygrid.reconciledFeeSplit amount feeBps =
      .ok (Paygrid.computeFeeSplit amount feeBps) := by
  unfold Paygrid.reconciledFeeSplit
  simp [Paygrid.computeFeeSplit_sum]

namespace Paygrid

/-- When `amountInCents * 10^decimals` is a multiple of 100 the conversion
succeeds and its value is the floor of the exact rational
`amountInCents / 100 * 10^decimals`. -/
theorem convertAmountToDecimals_eq_floor (ac d : Nat)
    (h : ac * 10 ^ d % 100 = 0) :
    (convertAmountToDecimals ac d).map Int.ofNat =
      some ⌊((ac : Rat) / 100) * 10 ^ d⌋ := by
  obtain ⟨k, hk⟩ := Nat.dvd_of_mod_eq_zero h
  have hval : ((ac : Rat) / 100) * 10 ^ d = (k : Rat) := by
    have hcast : (ac : Rat) * 10 ^ d = 100 * (k : Rat) := by
      exact_mod_cast congrArg (fun n : Nat => (n : Rat)) hk
    field_simp
    linarith [hcast]
  have hdiv : ac * 10 ^ d / 100 = k := by omega
  simp [convertAmountToDecimals, h, hdiv, hval]

end Paygrid

/-- C4 counterexample: at amount_cents = 1, decimals = 0 the conversion
throws (`parseUnits` rejects the fractional component of "0.01" at 0
decimals) instead of returning `floor(1 / 100 * 10^0) = 0`. -/
theorem convertAmount_claim_counterexample :
    Paygrid.convertAmountToDecimals 1 0 = none ∧
      Paygrid.convertAmountToDecimals 1 0 ≠ some (1 * 10 ^ 0 / 100) := by
  decide

/-- C4 amended: for every non-negative integer amount_cents and every
decimal count d ≥ 2 (which covers every configured token decimal count,
6 for USDC/USDT and 18 for DAI), the conversion returns exactly
`floor(amount_cents / 100 * 10^d)`; in particular amount_cents = 1000
with d = 6 yields 10000000.  (For d < 2 and amount_cents not a multiple
of `10^(2-d)` the code throws instead of flooring.) -/
theorem convertAmount_floor (ac d : Nat) (hd : 2 ≤ d) :
    (Paygrid.convertAmountToDecimals ac d).map Int.ofNat =
        some ⌊((ac : Rat) / 100) * 10 ^ d⌋
      ∧ Paygrid.convertAmountToDecimals 1000 6 = some 10000000 := by
  constructor
  · apply Paygrid.convertAmountToDecimals_eq_floor
    have h1 : (10 : Nat) ^ 2 ∣ 10 ^ d := pow_dvd_pow 10 hd
    have h2 : (100 : Nat) ∣ ac * 10 ^ d := by
      refine Dvd.dvd.mul_left ?_ ac
      simpa using h1
    omega
  · decide

/-- Witness for C4 amended at amount_cents = 1000, decimals = 6. -/
theorem convertAmount_floor_witness :
    ((Paygrid.convertAmountToDecimals 1000 6).map Int.ofNat =
        some ⌊((1000 : Rat) / 100) * 10 ^ 6⌋
      ∧ Paygrid.convertAmountToDecimals 1000 6 = some 10000000) :=
  convertAmount_floor 1000 6 (by decide)

/-- C5: the gross amount is adjusted by the corridor-fee quote exactly when
the charge bearer is PAYER and a (truthy) quoteId is present; when the
quote fetch fails in that case the function falls back to the unadjusted
converted amount instead of propagating the failure; and in the adjusted
case the result is `floor((amount_cents/100 + fees) * 10^decimals)`.
(When the fetched fee is the falsy value 0 the code also takes the
fallback, which coincides with the adjusted value whenever the plain
conversion is defined—hence the divisibility alternative.) -/
theorem corridor_fee_adjustment (ac d : Nat) (quoteId : Option String)
    (bearer : Option Paygrid.ChargeBearer) (fetch : Except String Rat) :
    (¬(Paygrid.isTruthyQuoteId quoteId = true
          ∧ bearer = some Paygrid.ChargeBearer.PAYER) →
        Paygrid.adjustAmountWithCorridorFees ac d quoteId bearer fetch =
          (Paygrid.convertAmountToDecimals ac d).map Int.ofNat)
    ∧ (∀ e : String, Paygrid.isTruthyQuoteId quoteId = true →
        bearer = some Paygrid.ChargeBearer.PAYER → fetch = .error e →
        Paygrid.adjustAmountWithCorridorFees ac d quoteId bearer fetch =
          (Paygrid.convertAmountToDecimals ac d).map Int.ofNat)
    ∧ (∀ f : Rat, Paygrid.isTruthyQuoteId quoteId = true →
        bearer = some Paygrid.ChargeBearer.PAYER → fetch = .ok f →
        (f ≠ 0 ∨ ac * 10 ^ d % 100 = 0) →
        Paygrid.adjustAmountWithCorridorFees ac d quoteId bearer fetch =
          some ⌊((ac : Rat) / 100 + f) * 10 ^ d⌋) := by
  refine ⟨?_, ?_, ?_⟩
  · intro hno
    simp only [Paygrid.adjustAmountWithCorridorFees, if_neg hno]
  · intro e ht hb hf
    subst hf
    simp only [Paygrid.adjustAmountWithCorridorFees, if_pos (And.intro ht hb)]
  · intro f ht hb hf hcase
    subst hf
    rcases hcase with hne | hdvd
    · simp only [Paygrid.adjustAmountWithCorridorFees, if_pos (And.intro ht hb),
        if_neg hne]
    · rcases eq_or_ne f 0 with rfl | hne
      · simp only [Paygrid.adjustAmountWithCorridorFees,
          if_pos (And.intro ht hb), if_pos rfl, add_zero]
        exact Paygrid.convertAmountToDecimals_eq_floor ac d hdvd
      · simp only [Paygrid.adjustAmountWithCorridorFees,
          if_pos (And.intro ht hb), if_neg hne]

/-- Witness for C5: concrete runs of the three cases at
amount_cents = 1000, decimals = 6 (fee 1/2 adjusts to 10500000; a failed
fetch and an absent quoteId both convert to 10000000). -/
theorem corridor_fee_adjustment_witness :
    Paygrid.adjustAmountWithCorridorFees 1000 6 (some "q1")
        (some Paygrid.ChargeBearer.PAYER) (.ok (1/2)) = some 10500000
      ∧ Paygrid.adjustAmountWithCorridorFees 1000 6 (some "q1")
        (some Paygrid.ChargeBearer.PAYER) (.error "boom") = some 10000000
      ∧ Paygrid.adjustAmountWithCorridorFees 1000 6 none
        (some Paygrid.ChargeBearer.PAYER) (.ok (1/2)) = some 10000000 := by
  refine ⟨?_, ?_, ?_⟩
  · have h := (corridor_fee_adjustment 1000 6 (some "q1")
        (some Paygrid.ChargeBearer.PAYER) (.ok (1/2))).2.2 (1/2)
        (by decide) rfl rfl (Or.inl (by norm_num))
    rw [h]
    norm_num
  · have h := (corridor_fee_adjustment 1000 6 (some "q1")
        (some Paygrid.ChargeBearer.PAYER) (.error "boom")).2.1 "boom"
        (by decide) rfl rfl
    rw [h]
    decide
  · have h := (corridor_fee_adjustment 1000 6 none
        (some Paygrid.ChargeBearer.PAYER) (.ok (1/2))).1
        (by simp [Paygrid.isTruthyQuoteId])
    rw [h]
    decide

/-- C10: every payment intent whose `payment_type`, lower-cased, is neither
"one-time" nor "recurring" (including an absent value) is silently coerced
rather than rejected: the signer encodes the witness `payment_type` as the
ONE_TIME code 0 and the submission formatter sends "one-time". -/
theorem invalid_paymentType_coerced (pt : Option String)
    (h1 : pt.map Paygrid.toLowerStr ≠ some "one-time")
    (h2 : pt.map Paygrid.toLowerStr ≠ some "recurring") :
    Paygrid.paymentTypeCode pt = 0
      ∧ Paygrid.submittedPaymentType pt = "one-time" := by
  cases hpt : pt.map Paygrid.toLowerStr with
  | none =>
      rcases pt with _ | s
      · exact ⟨rfl, rfl⟩
      · simp [Option.map] at hpt
  | some lower =>
      rw [hpt] at h1 h2
      have hl1 : lower ≠ "one-time" := by
        intro hc; exact h1 (by rw [hc])
      have hl2 : lower ≠ "recurring" := by
        intro hc; exact h2 (by rw [hc])
      constructor
      · unfold Paygrid.paymentTypeCode
        rw [hpt]
        simp [hl1, hl2]
      · unfold Paygrid.submittedPaymentType
        rw [hpt]
        simp [hl1, hl2]

/-- Witness for C10 at the invalid payment type "INSTALLMENT". -/
theorem invalid_paymentType_coerced_witness :
    Paygrid.paymentTypeCode (some "INSTALLMENT") = 0
      ∧ Paygrid.submittedPaymentType (some "INSTALLMENT") = "one-time" :=
  invalid_paymentType_coerced (some "INSTALLMENT") (by decide) (by decide)

/-- C6: the legacy permit payload builder dispatches on the static
permit-type table: a DAI-style entry yields exactly the field set
{holder, spender, nonce, expiry, allowed := true} with domain version
fixed to "1"; an EIP2612 entry yields exactly
{owner, spender, value, nonce, deadline}; a no-permit (`REGULAR`) or
unconfigured entry fails with the permit-not-supported error.
(The caller-supplied nonce hypothesis keeps the on-chain nonce probes out
of the dispatch statement.) -/
theorem permit_variant_dispatch (t : Paygrid.TokenSymbol)
    (n : Paygrid.NetworkKey) (params : Paygrid.PermitSignatureParams)
    (nameProbe versionProbe : Option String)
    (noncesProbe getNonceProbe : Option Nat) (n0 : Nat)
    (hn : params.nonce = some n0) :
    (Paygrid.getTokenPermitType t n = some Paygrid.PermitType.DAI →
      Paygrid.getPermitPayload t n params nameProbe versionProbe
          noncesProbe getNonceProbe =
        .ok { domain := { name := nameProbe.getD "Unknown Token",
                          version := "1",
                          chainId := Paygrid.chainId n,
                          verifyingContract := params.token }
              types := Paygrid.DAI_PERMIT_TYPES
              values := .dai params.owner
                (params.spender.getD Paygrid.GLOBAL_SPENDER) n0
                params.deadline true })
    ∧ (Paygrid.getTokenPermitType t n = some Paygrid.PermitType.EIP2612 →
      Paygrid.getPermitPayload t n params nameProbe versionProbe
          noncesProbe getNonceProbe =
        .ok { domain := { name := nameProbe.getD "Unknown Token",
                          version := versionProbe.getD "1",
                          chainId := Paygrid.chainId n,
                          verifyingContract := params.token }
              types := Paygrid.EIP2612_PERMIT_TYPES
              values := .eip2612 params.owner
                (params.spender.getD Paygrid.GLOBAL_SPENDER)
                (params.value.getD Paygrid.MAX_UINT256) n0
                params.deadline })
    ∧ ((Paygrid.getTokenPermitType t n = some Paygrid.PermitType.REGULAR
          ∨ Paygrid.getTokenPermitType t n = none) →
      Paygrid.getPermitPayload t n params nameProbe versionProbe
          noncesProbe getNonceProbe = .error .permitNotSupported) := by
  refine ⟨?_, ?_, ?_⟩
  · intro h
    unfold Paygrid.getPermitPayload
    rw [h]
    simp [Paygrid.generateDAIPayload, hn, Paygrid.getTokenNameAndVersion]
  · intro h
    unfold Paygrid.getPermitPayload
    rw [h]
    simp [Paygrid.generateEIP2612Payload, hn, Paygrid.getTokenNameAndVersion]
  · intro h
    unfold Paygrid.getPermitPayload
    rcases h with h | h <;> rw [h]

/-- Witness for C6: DAI on ETHEREUM takes the DAI-style branch, USDC on
BASE the EIP2612 branch, and USDT on ETHEREUM (a `REGULAR` entry) fails
with the permit-not-supported error. -/
theorem permit_variant_dispatch_witness :
    (Paygrid.getPermitPayload .DAI .ETHEREUM
        { token := "0xtoken", owner := "0xowner", spender := none,
          value := none, deadline := 1700003600, nonce := some 5 }
        (some "Dai Stablecoin") none none none =
      .ok { domain := { name := "Dai Stablecoin", version := "1",
                        chainId := 1, verifyingContract := "0xtoken" }
            types := Paygrid.DAI_PERMIT_TYPES
            values := .dai "0xowner" Paygrid.GLOBAL_SPENDER 5
              1700003600 true })
    ∧ (Paygrid.getPermitPayload .USDC .BASE
        { token := "0xtoken", owner := "0xowner", spender := none,
          value := some 12345, deadline := 1700003600, nonce := some 5 }
        (some "USD Coin") (some "2") none none =
      .ok { domain := { name := "USD Coin", version := "2",
                        chainId := 8453, verifyingContract := "0xtoken" }
            types := Paygrid.EIP2612_PERMIT_TYPES
            values := .eip2612 "0xowner" Paygrid.GLOBAL_SPENDER 12345 5
              1700003600 })
    ∧ Paygrid.getPermitPayload .USDT .ETHEREUM
        { token := "0xtoken", owner := "0xowner", spender := none,
          value := none, deadline := 1700003600, nonce := some 5 }
        none none none none = .error .permitNotSupported := by
  refine ⟨?_, ?_, ?_⟩
  · exact (permit_variant_dispatch .DAI .ETHEREUM _ (some "Dai Stablecoin")
      none none none 5 rfl).1 rfl
  · exact (permit_variant_dispatch .USDC .BASE _ (some "USD Coin")
      (some "2") none none 5 rfl).2.1 rfl
  · exact (permit_variant_dispatch .USDT .ETHEREUM _ none none none none
      5 rfl).2.2 (Or.inl rfl)

/-- C7: nonce resolution first probes `nonces(owner)`, falls back to
`getNonce(owner)` when `nonces` fails, and raises the nonce-unavailable
error exactly when both probes fail; in particular a token lacking
`nonces()` but exposing `getNonce()` still yields a usable nonce. -/
theorem nonce_fallback (noncesProbe getNonceProbe : Option Nat) :
    (∀ n, noncesProbe = some n →
      Paygrid.getTokenNonce noncesProbe getNonceProbe = .ok n)
    ∧ (∀ m, noncesProbe = none → getNonceProbe = some m →
      Paygrid.getTokenNonce noncesProbe getNonceProbe = .ok m)
    ∧ ((∃ e, Paygrid.getTokenNonce noncesProbe getNonceProbe = .error e) ↔
      noncesProbe = none ∧ getNonceProbe = none) := by
  cases noncesProbe <;> cases getNonceProbe <;>
    simp [Paygrid.getTokenNonce]

/-- Witness for C7: a token answering only `getNonce()` yields nonce 7,
and a token answering neither probe errors. -/
theorem nonce_fallback_witness :
    Paygrid.getTokenNonce none (some 7) = .ok 7
      ∧ (∃ e, Paygrid.getTokenNonce none none = .error e) :=
  ⟨(nonce_fallback none (some 7)).2.1 7 rfl rfl,
   (nonce_fallback none none).2.2.mpr ⟨rfl, rfl⟩⟩

namespace Paygrid

/-- A successful poll return can only come from the terminal branch with a
non-FAILED status, i.e. COMPLETED or CANCELLED. -/
theorem pollLoop_ok_status (f : Nat → PaymentIntentResponse)
    (a : Nat → Bool) (m : Nat) :
    ∀ (fuel attempts : Nat) (last : Option PaymentIntentResponse)
      (p : PaymentIntentResponse),
      pollLoop f a m attempts fuel last = .ok p →
      p.status = .COMPLETED ∨ p.status = .CANCELLED := by
  intro fuel
  induction fuel with
  | zero =>
      intro attempts last p h
      simp [pollLoop] at h
  | succ fuel ih =>
      intro attempts last p h
      simp only [pollLoop] at h
      split at h
      · exact absurd h (by simp)
      · split at h
        · split at h
          · exact absurd h (by simp)
          · rename_i hmem hfail
            cases h
            simp only [FINAL_PAYMENT_STATES, List.mem_cons,
              List.mem_singleton, List.not_mem_nil, or_false] at hmem
            rcases hmem with hc | hc | hc
            · exact Or.inl hc
            · exact absurd hc hfail
            · exact Or.inr hc
        · split at h
          · exact absurd h (by simp)
          · exact ih _ _ _ h

/-- A non-aborted, non-terminal, non-final iteration advances the loop. -/
theorem pollLoop_step (f : Nat → PaymentIntentResponse) (a : Nat → Bool)
    (m attempts fuel : Nat) (last : Option PaymentIntentResponse)
    (hab : a attempts = false)
    (hterm : (f attempts).status ∉ FINAL_PAYMENT_STATES)
    (hmax : attempts + 1 ≠ m) :
    pollLoop f a m attempts (fuel + 1) last =
      pollLoop f a m (attempts + 1) fuel (some (f attempts)) := by
  simp [pollLoop, hab, hterm, hmax]

/-- Running from `attempts` with a clean prefix up to the first terminal
response at index `k` ends in the terminal branch at `k`. -/
theorem pollLoop_reach (f : Nat → PaymentIntentResponse) (a : Nat → Bool)
    (m : Nat) :
    ∀ (fuel attempts : Nat) (last : Option PaymentIntentResponse) (k : Nat),
      attempts + fuel = m → attempts ≤ k → k < m →
      (∀ i, attempts ≤ i → i < k →
        a i = false ∧ (f i).status ∉ FINAL_PAYMENT_STATES) →
      a k = false →
      (f k).status ∈ FINAL_PAYMENT_STATES →
      pollLoop f a m attempts fuel last =
        if (f k).status = .FAILED then .error (.paymentFailed (f k))
        else .ok (f k) := by
  intro fuel
  induction fuel with
  | zero =>
      intro attempts last k h0 h1 h2 _ _ _
      omega
  | succ fuel ih =>
      intro attempts last k h0 h1 h2 hpre hak hterm
      rcases Nat.eq_or_lt_of_le h1 with rfl | hlt
      · simp [pollLoop, hak, hterm]
      · obtain ⟨hab, hnt⟩ := hpre attempts le_rfl hlt
        rw [pollLoop_step f a m attempts fuel last hab hnt (by omega)]
        exact ih (attempts + 1) (some (f attempts)) k (by omega) hlt h2
          (fun i hi1 hi2 => hpre i (by omega) hi2) hak hterm

/-- Running from `attempts` with no terminal response and no abort up to
`maxAttempts` exhausts the attempts with the in-loop timeout error
carrying the last fetched response. -/
theorem pollLoop_timeout (f : Nat → PaymentIntentResponse) (a : Nat → Bool)
    (m : Nat) :
    ∀ (fuel attempts : Nat) (last : Option PaymentIntentResponse),
      attempts + fuel = m → 0 < fuel →
      (∀ i, attempts ≤ i → i < m →
        a i = false ∧ (f i).status ∉ FINAL_PAYMENT_STATES) →
      pollLoop f a m attempts fuel last =
        .error (.timeoutReached (f (m - 1))) := by
  intro fuel
  induction fuel with
  | zero =>
      intro attempts last h0 h1 _
      omega
  | succ fuel ih =>
      intro attempts last h0 _ hpre
      rcases Nat.eq_zero_or_pos fuel with rfl | hf
      · obtain ⟨hab, hnt⟩ := hpre attempts le_rfl (by omega)
        have hm : attempts + 1 = m := by omega
        have hidx : attempts = m - 1 := by omega
        rw [← hidx]
        simp [pollLoop, hab, hnt, hm]
      · obtain ⟨hab, hnt⟩ := hpre attempts le_rfl (by omega)
        rw [pollLoop_step f a m attempts fuel last hab hnt (by omega)]
        exact ih (attempts + 1) (some (f attempts)) (by omega) hf
          (fun i hi1 hi2 => hpre i (by omega) hi2)

/-- With a clean prefix below `k` and the cancellation signal set at
iteration `k`, the loop exits with the aborted error at the top of
iteration `k`, carrying the previously fetched response. -/
theorem pollLoop_abort (f : Nat → PaymentIntentResponse) (a : Nat → Bool)
    (m : Nat) :
    ∀ (fuel attempts : Nat) (last : Option PaymentIntentResponse) (k : Nat),
      attempts + fuel = m → attempts ≤ k → k < m →
      (∀ i, attempts ≤ i → i < k →
        a i = false ∧ (f i).status ∉ FINAL_PAYMENT_STATES) →
      a k = true →
      pollLoop f a m attempts fuel last =
        .error (.aborted (if attempts = k then last else some (f (k - 1)))) := by
  intro fuel
  induction fuel with
  | zero =>
      intro attempts last k h0 h1 h2 _ _
      omega
  | succ fuel ih =>
      intro attempts last k h0 h1 h2 hpre hak
      rcases Nat.eq_or_lt_of_le h1 with rfl | hlt
      · simp [pollLoop, hak]
      · obtain ⟨hab, hnt⟩ := hpre attempts le_rfl hlt
        rw [pollLoop_step f a m attempts fuel last hab hnt (by omega)]
        rw [ih (attempts + 1) (some (f attempts)) k (by omega) hlt h2
          (fun i hi1 hi2 => hpre i (by omega) hi2) hak]
        by_cases hek : attempts + 1 = k
        · rw [if_pos hek, if_neg (by omega)]
          have hk1 : k - 1 = attempts := by omega
          rw [hk1]
        · rw [if_neg hek, if_neg (by omega)]

end Paygrid

/-- C3 counterexample: a poll run whose first observed status is the
terminal CANCELLED returns successfully with the CANCELLED payload
(`return paymentIntent` — only FAILED throws), instead of surfacing
CANCELLED as an error as the claim states. -/
theorem polling_cancelled_counterexample :
    Paygrid.pollPaymentIntentStatus
        (fun _ => { id := "pi_1", status := .CANCELLED, txError := none })
        (fun _ => false) 600 =
      .ok { id := "pi_1", status := .CANCELLED, txError := none } := by
  rfl

/-- C3 amended: a successful return carries a COMPLETED or a CANCELLED
status (CANCELLED is terminal-but-successful in the code, only FAILED is
terminal-but-error); the first terminal status being FAILED raises the
payment-failed error carrying that payload (with its blockchain
transaction error detail); never reaching a terminal status within the
maximum attempt count raises the timeout error carrying the last known
status; and the sequence [SCHEDULED, PROCESSING, COMPLETED] returns
successfully with the COMPLETED payload. -/
theorem polling_terminal_states :
    (∀ (fetch : Nat → Paygrid.PaymentIntentResponse) (abortAt : Nat → Bool)
        (m : Nat) (p : Paygrid.PaymentIntentResponse),
      Paygrid.pollPaymentIntentStatus fetch abortAt m = .ok p →
      p.status = .COMPLETED ∨ p.status = .CANCELLED)
    ∧ (∀ (fetch : Nat → Paygrid.PaymentIntentResponse) (abortAt : Nat → Bool)
        (m k : Nat), k < m →
      (∀ i, i ≤ k → abortAt i = false) →
      (∀ i, i < k →
        (fetch i).status ∉ Paygrid.FINAL_PAYMENT_STATES) →
      (fetch k).status = .FAILED →
      Paygrid.pollPaymentIntentStatus fetch abortAt m =
        .error (.paymentFailed (fetch k)))
    ∧ (∀ (fetch : Nat → Paygrid.PaymentIntentResponse) (abortAt : Nat → Bool)
        (m : Nat), 0 < m →
      (∀ i, i < m → abortAt i = false) →
      (∀ i, i < m →
        (fetch i).status ∉ Paygrid.FINAL_PAYMENT_STATES) →
      Paygrid.pollPaymentIntentStatus fetch abortAt m =
        .error (.timeoutReached (fetch (m - 1))))
    ∧ Paygrid.pollPaymentIntentStatus
        (fun i =>
          if i = 0 then { id := "pi_2", status := .SCHEDULED, txError := none }
          else if i = 1 then
            { id := "pi_2", status := .PROCESSING, txError := none }
          else { id := "pi_2", status := .COMPLETED, txError := none })
        (fun _ => false) 600 =
      .ok { id := "pi_2", status := .COMPLETED, txError := none } := by
  refine ⟨?_, ?_, ?_, ?_⟩
  · intro fetch abortAt m p h
    exact Paygrid.pollLoop_ok_status fetch abortAt m m 0 none p h
  · intro fetch abortAt m k hkm hab hterm hfail
    have h := Paygrid.pollLoop_reach fetch abortAt m m 0 none k (by omega)
      (by omega) hkm
      (fun i hi1 hi2 => ⟨hab i (by omega), hterm i hi2⟩)
      (hab k le_rfl) (by rw [hfail]; decide)
    rw [Paygrid.pollPaymentIntentStatus, h, if_pos hfail]
  · intro fetch abortAt m hm hab hterm
    exact Paygrid.pollLoop_timeout fetch abortAt m m 0 none (by omega) hm
      (fun i hi1 hi2 => ⟨hab i hi2, hterm i hi2⟩)
  · rfl

/-- Witness for C3 amended: a COMPLETED-only run is in the successful
statuses, a [SCHEDULED, FAILED] run raises the payment-failed error with
its transaction error detail, and an all-PROCESSING run of 3 attempts
raises the timeout error carrying the last PROCESSING payload. -/
theorem polling_terminal_states_witness :
    (({ id := "pi_ok", status := .COMPLETED, txError := none } :
        Paygrid.PaymentIntentResponse).status = .COMPLETED ∨
      ({ id := "pi_ok", status := .COMPLETED, txError := none } :
        Paygrid.PaymentIntentResponse).status = .CANCELLED)
    ∧ Paygrid.pollPaymentIntentStatus
        (fun i =>
          if i = 0 then { id := "pi_f", status := .SCHEDULED, txError := none }
          else { id := "pi_f", status := .FAILED, txError := some "out of gas" })
        (fun _ => false) 600 =
      .error (.paymentFailed
        { id := "pi_f", status := .FAILED, txError := some "out of gas" })
    ∧ Paygrid.pollPaymentIntentStatus
        (fun _ => { id := "pi_t", status := .PROCESSING, txError := none })
        (fun _ => false) 3 =
      .error (.timeoutReached
        { id := "pi_t", status := .PROCESSING, txError := none }) := by
  refine ⟨?_, ?_, ?_⟩
  · exact polling_terminal_states.1
      (fun _ => { id := "pi_ok", status := .COMPLETED, txError := none })
      (fun _ => false) 600 _ (by rfl)
  · exact polling_terminal_states.2.1
      (fun i =>
        if i = 0 then { id := "pi_f", status := .SCHEDULED, txError := none }
        else { id := "pi_f", status := .FAILED, txError := some "out of gas" })
      (fun _ => false) 600 1 (by omega)
      (fun i _ => rfl)
      (fun i hi => by
        have h0 : i = 0 := by omega
        subst h0
        decide)
      (by decide)
  · exact polling_terminal_states.2.2.1
      (fun _ => { id := "pi_t", status := .PROCESSING, txError := none })
      (fun _ => false) 3 (by omega)
      (fun i _ => rfl)
      (fun i _ => by
        show Paygrid.PaymentStatus.PROCESSING ∉ Paygrid.FINAL_PAYMENT_STATES
        decide)

/-- C9: the cancellation signal is checked at the top of every loop
iteration: if it is triggered at iteration k after k clean iterations,
the poll exits with the aborted error carrying the last known status, and
the outcome is the same for any fetch trace agreeing on the first k
responses — the response of iteration k (the next API call) is never
consulted. -/
theorem abort_checked_before_next_call
    (fetch fetchAfter : Nat → Paygrid.PaymentIntentResponse)
    (abortAt : Nat → Bool) (m k : Nat)
    (hk : 1 ≤ k) (hkm : k < m)
    (hab : ∀ i, i < k → abortAt i = false)
    (hterm : ∀ i, i < k →
      (fetch i).status ∉ Paygrid.FINAL_PAYMENT_STATES)
    (habk : abortAt k = true)
    (hagree : ∀ i, i < k → fetchAfter i = fetch i) :
    Paygrid.pollPaymentIntentStatus fetch abortAt m =
        .error (.aborted (some (fetch (k - 1))))
      ∧ Paygrid.pollPaymentIntentStatus fetchAfter abortAt m =
        .error (.aborted (some (fetch (k - 1)))) := by
  constructor
  · have h := Paygrid.pollLoop_abort fetch abortAt m m 0 none k (by omega)
      (by omega) hkm (fun i hi1 hi2 => ⟨hab i hi2, hterm i hi2⟩) habk
    rw [Paygrid.pollPaymentIntentStatus, h, if_neg (by omega)]
  · have h := Paygrid.pollLoop_abort fetchAfter abortAt m m 0 none k
      (by omega) (by omega) hkm
      (fun i hi1 hi2 => ⟨hab i hi2, by rw [hagree i hi2]; exact hterm i hi2⟩)
      habk
    rw [Paygrid.pollPaymentIntentStatus, h, if_neg (by omega),
      hagree (k - 1) (by omega)]

/-- Witness for C9: the signal turns on at iteration 1 after one
PROCESSING poll; the run aborts with the PROCESSING payload, and the same
error results for a trace that would have answered COMPLETED from
iteration 1 on. -/
theorem abort_checked_before_next_call_witness :
    Paygrid.pollPaymentIntentStatus
        (fun _ => { id := "pi_a", status := .PROCESSING, txError := none })
        (fun i => decide (i = 1)) 5 =
      .error (.aborted
        (some { id := "pi_a", status := .PROCESSING, txError := none }))
      ∧ Paygrid.pollPaymentIntentStatus
        (fun i =>
          if i = 0 then { id := "pi_a", status := .PROCESSING, txError := none }
          else { id := "pi_a", status := .COMPLETED, txError := none })
        (fun i => decide (i = 1)) 5 =
      .error (.aborted
        (some { id := "pi_a", status := .PROCESSING, txError := none })) :=
  abort_checked_before_next_call
    (fun _ => { id := "pi_a", status := .PROCESSING, txError := none })
    (fun i =>
      if i = 0 then { id := "pi_a", status := .PROCESSING, txError := none }
      else { id := "pi_a", status := .COMPLETED, txError := none })
    (fun i => decide (i = 1)) 5 1 (by omega) (by omega)
    (fun i hi => by
      have h0 : i = 0 := by omega
      subst h0
      decide)
    (fun i hi => by
      have h0 : i = 0 := by omega
      subst h0
      decide)
    (by decide)
    (fun i hi => by
      have h0 : i = 0 := by omega
      subst h0
      rfl)

/-- C2: for every signer lacking native `_signTypedData` and every typed
data payload, the signature produced by the synthesized fallback differs
from what native structured-data signing would produce for the same key
and payload: the fallback signs the EIP-191 personal-message hash of a
re-wrapped digest (and its `hashStruct` variable already holds the full
EIP-712 digest), so the digest handed to ECDSA is never the EIP-712
digest itself. -/
theorem fallback_signature_not_native (signer : Paygrid.SymSigner)
    (p : Paygrid.TypedDataPayload)
    (h : signer.hasSignTypedData = false) :
    Paygrid.signTypedDataVia signer p ≠
      Paygrid.nativeSignTypedData signer.key p := by
  intro hcontra
  rw [Paygrid.signTypedDataVia, if_neg (by simp [h])] at hcontra
  simp only [Paygrid.fallbackSignTypedData, Paygrid.nativeSignTypedData,
    Paygrid.hashMessage, Paygrid.eip712Digest, Paygrid.SymSignature.mk.injEq,
    Paygrid.SymBytes.keccak.injEq, Paygrid.SymBytes.append.injEq,
    Paygrid.SymBytes.lit.injEq] at hcontra
  exact absurd hcontra.2.1 (by decide)

/-- Witness for C2 at a concrete key and payload: the fallback and native
signatures differ. -/
theorem fallback_signature_not_native_witness :
    Paygrid.signTypedDataVia { hasSignTypedData := false, key := "0xA11CE" }
        { domain := "PermitDomain", types := "PermitTypes",
          values := "PermitValues" } ≠
      Paygrid.nativeSignTypedData "0xA11CE"
        { domain := "PermitDomain", types := "PermitTypes",
          values := "PermitValues" } :=
  fallback_signature_not_native
    { hasSignTypedData := false, key := "0xA11CE" }
    { domain := "PermitDomain", types := "PermitTypes",
      values := "PermitValues" } rfl
